import Mathlib

/-!
# probabilistic-quadrics: the minimal vector math backend (`minimal-math.hh`)

A shallow embedding of the three value types `vec<3, ScalarT>`,
`pos<3, ScalarT>`, `mat<3, 3, ScalarT>` and of the seven arithmetic operators
of `namespace pq`, followed by theorems about them.

The scalar type is a type parameter `T`.  Each definition asks only for the
scalar operations its C++ body uses (`*`, `+`, `-`, and `ScalarT(0)` for default
construction), given as the classes `Mul T`, `Add T`, `Sub T`, `Zero T`;
no algebraic law is assumed unless a theorem states it.

The accessors `operator[]` appear twice: over the index type `Fin 3`, and over an
arbitrary `int` with an access outside `{0, 1, 2}` undefined.  The operators appear
twice accordingly, and the second form is shown never to take the undefined branch.
-/

namespace pq

universe u v

/-! ## Types -/

/-- The struct `vec<3, ScalarT>`: the three named fields `x`, `y`, `z`. -/
structure vec (T : Type u) where
  x : T
  y : T
  z : T
  deriving DecidableEq

/-- The struct `pos<3, ScalarT>`: the three named fields `x`, `y`, `z`. -/
structure pos (T : Type u) where
  x : T
  y : T
  z : T
  deriving DecidableEq

/-- The struct `mat<3, 3, ScalarT>`: the private member `vec<R, ScalarT> m[C]` with
`C = R = 3`, one field per array slot (`m0` is `m[0]`, `m1` is `m[1]`, `m2` is `m[2]`). -/
structure mat (T : Type u) where
  m0 : vec T
  m1 : vec T
  m2 : vec T
  deriving DecidableEq

/-- Default construction of `vec<3, ScalarT>`: the default member initialisers
`x = ScalarT(0)`, `y = ScalarT(0)`, `z = ScalarT(0)`. -/
def vec.default {T : Type u} [Zero T] : vec T :=
  { x := 0, y := 0, z := 0 }

/-- Default construction of `pos<3, ScalarT>`: the default member initialisers
`x = ScalarT(0)`, `y = ScalarT(0)`, `z = ScalarT(0)`. -/
def pos.default {T : Type u} [Zero T] : pos T :=
  { x := 0, y := 0, z := 0 }

/-- Default construction of `mat<3, 3, ScalarT>`: the member array `m[3]` has no
initialiser, so each of its three elements is default-constructed as a `vec`. -/
def mat.default {T : Type u} [Zero T] : mat T :=
  { m0 := vec.default, m1 := vec.default, m2 := vec.default }

/-! ## Indexed access

`operator[](int i)` is `(&x)[i]` on `vec` and `pos` and `m[i]` on `mat`.  It is
defined for `i` in `{0, 1, 2}` only, which is the index type `Fin 3` here:
slot `0` of `(&x)` is `x`, slot `1` is `y`, slot `2` is `z`. -/

/-- Read access `vec<3, ScalarT>::operator[](int i) const`, returning `(&x)[i]`. -/
def vec.index {T : Type u} (v : vec T) (i : Fin 3) : T :=
  match i with
  | 0 => v.x
  | 1 => v.y
  | 2 => v.z

/-- Read access `pos<3, ScalarT>::operator[](int i) const`, returning `(&x)[i]`. -/
def pos.index {T : Type u} (p : pos T) (i : Fin 3) : T :=
  match i with
  | 0 => p.x
  | 1 => p.y
  | 2 => p.z

/-- Read access `mat::operator[](int i) const`, returning the array slot `m[i]`. -/
def mat.index {T : Type u} (a : mat T) (i : Fin 3) : vec T :=
  match i with
  | 0 => a.m0
  | 1 => a.m1
  | 2 => a.m2

/-- Assignment through the mutable accessor of `mat`, `a[i] = c`: the array slot
`m[i]` is overwritten with `c`. -/
def mat.set {T : Type u} (a : mat T) (i : Fin 3) (c : vec T) : mat T :=
  match i with
  | 0 => { a with m0 := c }
  | 1 => { a with m1 := c }
  | 2 => { a with m2 := c }

/-! ## Operations -/

/-- The vector-scalar product `operator*(vec<3, T> const& v, T const& s)`:
`return {v.x * s, v.y * s, v.z * s};`. -/
def mul_vec_scalar {T : Type u} [Mul T] (v : vec T) (s : T) : vec T :=
  { x := v.x * s, y := v.y * s, z := v.z * s }

/-- The matrix-vector product `operator*(mat<3, 3, T> const& A, vec<3, T> const& b)`:
the three rows of the braced return, with `A[c][r]` read through the two accessors. -/
def mul_mat_vec {T : Type u} [Add T] [Mul T] (A : mat T) (b : vec T) : vec T :=
  { x := (A.index 0).index 0 * b.x + (A.index 1).index 0 * b.y + (A.index 2).index 0 * b.z,
    y := (A.index 0).index 1 * b.x + (A.index 1).index 1 * b.y + (A.index 2).index 1 * b.z,
    z := (A.index 0).index 2 * b.x + (A.index 1).index 2 * b.y + (A.index 2).index 2 * b.z }

/-- The matrix-scalar product `operator*(mat<3, 3, T> m, T const& s)`: `m` is taken by
value and its three slots are overwritten one after the other,
`m[0] = m[0] * s; m[1] = m[1] * s; m[2] = m[2] * s; return m;`. -/
def mul_mat_scalar {T : Type u} [Mul T] (m : mat T) (s : T) : mat T :=
  let m := m.set 0 (mul_vec_scalar (m.index 0) s)
  let m := m.set 1 (mul_vec_scalar (m.index 1) s)
  let m := m.set 2 (mul_vec_scalar (m.index 2) s)
  m

/-- The vector sum `operator+(vec<3, T> const& a, vec<3, T> const& b)`:
`return {a.x + b.x, a.y + b.y, a.z + b.z};`. -/
def add_vec {T : Type u} [Add T] (a b : vec T) : vec T :=
  { x := a.x + b.x, y := a.y + b.y, z := a.z + b.z }

/-- The vector difference `operator-(vec<3, T> const& a, vec<3, T> const& b)`:
`return {a.x - b.x, a.y - b.y, a.z - b.z};`. -/
def sub_vec {T : Type u} [Sub T] (a b : vec T) : vec T :=
  { x := a.x - b.x, y := a.y - b.y, z := a.z - b.z }

/-- The matrix sum `operator+(mat<3, 3, T> const& a, mat<3, 3, T> const& b)`: a
default-constructed `r` whose slots are then assigned,
`r[0] = a[0] + b[0]; r[1] = a[1] + b[1]; r[2] = a[2] + b[2]; return r;`. -/
def add_mat {T : Type u} [Zero T] [Add T] (a b : mat T) : mat T :=
  let r : mat T := mat.default
  let r := r.set 0 (add_vec (a.index 0) (b.index 0))
  let r := r.set 1 (add_vec (a.index 1) (b.index 1))
  let r := r.set 2 (add_vec (a.index 2) (b.index 2))
  r

/-- The matrix difference `operator-(mat<3, 3, T> const& a, mat<3, 3, T> const& b)`: a
default-constructed `r` whose slots are then assigned,
`r[0] = a[0] - b[0]; r[1] = a[1] - b[1]; r[2] = a[2] - b[2]; return r;`. -/
def sub_mat {T : Type u} [Zero T] [Sub T] (a b : mat T) : mat T :=
  let r : mat T := mat.default
  let r := r.set 0 (sub_vec (a.index 0) (b.index 0))
  let r := r.set 1 (sub_vec (a.index 1) (b.index 1))
  let r := r.set 2 (sub_vec (a.index 2) (b.index 2))
  r

/-- Assignment through the mutable accessor of `vec`, `v[i] = s`: the slot `(&x)[i]`
is overwritten with `s`. -/
def vec.set {T : Type u} (v : vec T) (i : Fin 3) (s : T) : vec T :=
  match i with
  | 0 => { v with x := s }
  | 1 => { v with y := s }
  | 2 => { v with z := s }

/-- Assignment through the mutable accessor of `pos`, `p[i] = s`: the slot `(&x)[i]`
is overwritten with `s`. -/
def pos.set {T : Type u} (p : pos T) (i : Fin 3) (s : T) : pos T :=
  match i with
  | 0 => { p with x := s }
  | 1 => { p with y := s }
  | 2 => { p with z := s }

/-! ## Indexed access with an arbitrary `int`

The accessors take an `int`.  Here the index is any integer and the access is partial:
`(&x)[i]` is the scalar `i` places after `x`, which is `x`, `y`, `z` for `i = 0, 1, 2`
(the three members are declared in this order) and lies outside the object for every
other `i`; likewise `m[i]` is inside the array `m[3]` for `i = 0, 1, 2` only.  An
access outside the object is `none`. -/

/-- Read access `vec<3, ScalarT>::operator[](int i)` for an arbitrary `int`. -/
def vec.index? {T : Type u} (v : vec T) (i : Int) : Option T :=
  if i = 0 then some v.x
  else if i = 1 then some v.y
  else if i = 2 then some v.z
  else none

/-- Read access `pos<3, ScalarT>::operator[](int i)` for an arbitrary `int`. -/
def pos.index? {T : Type u} (p : pos T) (i : Int) : Option T :=
  if i = 0 then some p.x
  else if i = 1 then some p.y
  else if i = 2 then some p.z
  else none

/-- Read access `mat::operator[](int i)` for an arbitrary `int`. -/
def mat.index? {T : Type u} (a : mat T) (i : Int) : Option (vec T) :=
  if i = 0 then some a.m0
  else if i = 1 then some a.m1
  else if i = 2 then some a.m2
  else none

/-- Assignment `a[i] = c` through `mat::operator[](int i)` for an arbitrary `int`. -/
def mat.set? {T : Type u} (a : mat T) (i : Int) (c : vec T) : Option (mat T) :=
  if i = 0 then some { a with m0 := c }
  else if i = 1 then some { a with m1 := c }
  else if i = 2 then some { a with m2 := c }
  else none

/-! ## The operations over the partial accessors

The seven operators again, statement by statement, with every `operator[]` call of the
C++ body made through the partial accessors at the literal index written in the source.
An operator fails (`none`) as soon as one of its accesses does. -/

/-- The body of `operator*(vec<3, T> const& v, T const& s)`; it reads the named members
only. -/
def mul_vec_scalar? {T : Type u} [Mul T] (v : vec T) (s : T) : Option (vec T) :=
  pure { x := v.x * s, y := v.y * s, z := v.z * s }

/-- The first initialiser of the braced return of
`operator*(mat<3, 3, T> const& A, vec<3, T> const& b)`:
`A[0][0] * b.x + A[1][0] * b.y + A[2][0] * b.z`. -/
def mul_mat_vec_x? {T : Type u} [Add T] [Mul T] (A : mat T) (b : vec T) : Option T := do
  pure ((← (← A.index? 0).index? 0) * b.x + (← (← A.index? 1).index? 0) * b.y
    + (← (← A.index? 2).index? 0) * b.z)

/-- The second initialiser of the braced return of
`operator*(mat<3, 3, T> const& A, vec<3, T> const& b)`:
`A[0][1] * b.x + A[1][1] * b.y + A[2][1] * b.z`. -/
def mul_mat_vec_y? {T : Type u} [Add T] [Mul T] (A : mat T) (b : vec T) : Option T := do
  pure ((← (← A.index? 0).index? 1) * b.x + (← (← A.index? 1).index? 1) * b.y
    + (← (← A.index? 2).index? 1) * b.z)

/-- The third initialiser of the braced return of
`operator*(mat<3, 3, T> const& A, vec<3, T> const& b)`:
`A[0][2] * b.x + A[1][2] * b.y + A[2][2] * b.z`. -/
def mul_mat_vec_z? {T : Type u} [Add T] [Mul T] (A : mat T) (b : vec T) : Option T := do
  pure ((← (← A.index? 0).index? 2) * b.x + (← (← A.index? 1).index? 2) * b.y
    + (← (← A.index? 2).index? 2) * b.z)

/-- The body of `operator*(mat<3, 3, T> const& A, vec<3, T> const& b)`: the braced
return of its three initialisers, in order. -/
def mul_mat_vec? {T : Type u} [Add T] [Mul T] (A : mat T) (b : vec T) : Option (vec T) := do
  let x ← mul_mat_vec_x? A b
  let y ← mul_mat_vec_y? A b
  let z ← mul_mat_vec_z? A b
  pure { x := x, y := y, z := z }

/-- The body of `operator*(mat<3, 3, T> m, T const& s)`. -/
def mul_mat_scalar? {T : Type u} [Mul T] (m : mat T) (s : T) : Option (mat T) := do
  let m ← m.set? 0 (← mul_vec_scalar? (← m.index? 0) s)
  let m ← m.set? 1 (← mul_vec_scalar? (← m.index? 1) s)
  let m ← m.set? 2 (← mul_vec_scalar? (← m.index? 2) s)
  pure m

/-- The body of `operator+(vec<3, T> const& a, vec<3, T> const& b)`; it reads the named
members only. -/
def add_vec? {T : Type u} [Add T] (a b : vec T) : Option (vec T) :=
  pure { x := a.x + b.x, y := a.y + b.y, z := a.z + b.z }

/-- The body of `operator-(vec<3, T> const& a, vec<3, T> const& b)`; it reads the named
members only. -/
def sub_vec? {T : Type u} [Sub T] (a b : vec T) : Option (vec T) :=
  pure { x := a.x - b.x, y := a.y - b.y, z := a.z - b.z }

/-- The body of `operator+(mat<3, 3, T> const& a, mat<3, 3, T> const& b)`. -/
def add_mat? {T : Type u} [Zero T] [Add T] (a b : mat T) : Option (mat T) := do
  let r : mat T := mat.default
  let r ← r.set? 0 (← add_vec? (← a.index? 0) (← b.index? 0))
  let r ← r.set? 1 (← add_vec? (← a.index? 1) (← b.index? 1))
  let r ← r.set? 2 (← add_vec? (← a.index? 2) (← b.index? 2))
  pure r

/-- The body of `operator-(mat<3, 3, T> const& a, mat<3, 3, T> const& b)`. -/
def sub_mat? {T : Type u} [Zero T] [Sub T] (a b : mat T) : Option (mat T) := do
  let r : mat T := mat.default
  let r ← r.set? 0 (← sub_vec? (← a.index? 0) (← b.index? 0))
  let r ← r.set? 1 (← sub_vec? (← a.index? 1) (← b.index? 1))
  let r ← r.set? 2 (← sub_vec? (← a.index? 2) (← b.index? 2))
  pure r

/-! ## The backend alias -/

/-- The alias `minimal_math<ScalarT>`, which is
`math<ScalarT, pos<3, ScalarT>, vec<3, ScalarT>, mat<3, 3, ScalarT>>`.  The template
`math` comes from `probabilistic-quadrics.hh`; it is a parameter here, any function of
four types. -/
def minimal_math {α : Sort v} (math : Type u → Type u → Type u → Type u → α)
    (ScalarT : Type u) : α :=
  math ScalarT (pos ScalarT) (vec ScalarT) (mat ScalarT)

/-! ## Scalar maps and wrapping integers

What is needed to state that the operators pass the scalar arithmetic through
unchanged: the component-wise image of a vector or matrix under a map of scalars, and
the scalar type of `w`-bit wrapping integers. -/

/-- The image of a vector under a scalar map, component by component. -/
def vec.map {S : Type u} {T : Type v} (f : S → T) (a : vec S) : vec T :=
  { x := f a.x, y := f a.y, z := f a.z }

/-- The image of a matrix under a scalar map, column by column. -/
def mat.map {S : Type u} {T : Type v} (f : S → T) (a : mat S) : mat T :=
  { m0 := a.m0.map f, m1 := a.m1.map f, m2 := a.m2.map f }

/-- Reduction of an integer modulo `2 ^ w`, into the range `0 ≤ r < 2 ^ w`. -/
def wrap (w : Nat) (n : Int) : Int :=
  n % 2 ^ w

/-- A `w`-bit wrapping (unsigned) integer: an integer in the range `0 ≤ val < 2 ^ w`. -/
structure wint (w : Nat) where
  val : Int
  lo : 0 ≤ val
  hi : val < 2 ^ w
  deriving DecidableEq

/-- Conversion of an integer to `w` bits: its residue modulo `2 ^ w`. -/
def wint.ofInt (w : Nat) (n : Int) : wint w :=
  { val := wrap w n
    lo := Int.emod_nonneg n (pow_ne_zero w (by decide))
    hi := Int.emod_lt_of_pos n (pow_pos (by decide) w) }

/-- The literal `0` as a `w`-bit integer. -/
instance wint.instZero (w : Nat) : Zero (wint w) :=
  ⟨wint.ofInt w 0⟩

/-- Wrapping addition: the integer sum reduced modulo `2 ^ w`. -/
instance wint.instAdd (w : Nat) : Add (wint w) :=
  ⟨fun a b => wint.ofInt w (a.val + b.val)⟩

/-- Wrapping subtraction: the integer difference reduced modulo `2 ^ w`. -/
instance wint.instSub (w : Nat) : Sub (wint w) :=
  ⟨fun a b => wint.ofInt w (a.val - b.val)⟩

/-- Wrapping multiplication: the integer product reduced modulo `2 ^ w`. -/
instance wint.instMul (w : Nat) : Mul (wint w) :=
  ⟨fun a b => wint.ofInt w (a.val * b.val)⟩

/-! ## Basic facts about the accessors -/

/-- Reading slot `i` after assigning slot `i` returns the assigned column. -/
theorem mat_index_set_same {T : Type u} (a : mat T) (i : Fin 3) (c : vec T) :
    (a.set i c).index i = c := by
  fin_cases i <;> rfl

/-- Assigning slot `i` leaves every other slot as it was. -/
theorem mat_index_set_other {T : Type u} (a : mat T) (i j : Fin 3) (c : vec T)
    (h : j ≠ i) : (a.set i c).index j = a.index j := by
  fin_cases i <;> fin_cases j <;> first | rfl | exact absurd rfl h

/-! ## The operators, component by component -/

/-- C1: for every scalar type, matrix `M`, vector `v` and index `i`, component `i` of
`M * v` is `(M[0][i] * v[0] + M[1][i] * v[1]) + M[2][i] * v[2]`: the stored columns
are combined, the matrix entry is the left factor and the sum runs left to right. -/
theorem mul_mat_vec_index {T : Type u} [Add T] [Mul T] (M : mat T) (v : vec T)
    (i : Fin 3) :
    (mul_mat_vec M v).index i
      = ((M.index 0).index i * v.index 0 + (M.index 1).index i * v.index 1)
          + (M.index 2).index i * v.index 2 := by
  fin_cases i <;> rfl

/-- An instance of C1 on the integers: with columns `{1, 2, 3}`, `{4, 5, 6}`, `{7, 8, 9}`
and `v = {1, 10, 100}` the product is `{741, 852, 963}`, the combination of the stored
columns (the transposed map would give `{321, 654, 987}`). -/
theorem mul_mat_vec_index_witness :
    (mul_mat_vec
        ({ m0 := { x := 1, y := 2, z := 3 }, m1 := { x := 4, y := 5, z := 6 },
           m2 := { x := 7, y := 8, z := 9 } } : mat Int)
        { x := 1, y := 10, z := 100 }).index 0 = 741
      ∧ (mul_mat_vec
        ({ m0 := { x := 1, y := 2, z := 3 }, m1 := { x := 4, y := 5, z := 6 },
           m2 := { x := 7, y := 8, z := 9 } } : mat Int)
        { x := 1, y := 10, z := 100 }).index 1 = 852
      ∧ (mul_mat_vec
        ({ m0 := { x := 1, y := 2, z := 3 }, m1 := { x := 4, y := 5, z := 6 },
           m2 := { x := 7, y := 8, z := 9 } } : mat Int)
        { x := 1, y := 10, z := 100 }).index 2 = 963 :=
  ⟨mul_mat_vec_index _ _ 0, mul_mat_vec_index _ _ 1, mul_mat_vec_index _ _ 2⟩

/-- C2: for every scalar type, vector `v`, scalar `s` and index `i`, component `i` of
`v * s` is `v[i] * s` with the scalar as the right factor, so that
`v * s` is `(v.x * s, v.y * s, v.z * s)`. -/
theorem mul_vec_scalar_index {T : Type u} [Mul T] (v : vec T) (s : T) :
    (∀ i : Fin 3, (mul_vec_scalar v s).index i = v.index i * s)
      ∧ mul_vec_scalar v s = { x := v.x * s, y := v.y * s, z := v.z * s } := by
  refine ⟨fun i => ?_, rfl⟩
  fin_cases i <;> rfl

/-- The scenario of C2 on the integers: `{1, 2, 3} * 2` is `{2, 4, 6}`. -/
theorem mul_vec_scalar_index_witness :
    mul_vec_scalar ({ x := 1, y := 2, z := 3 } : vec Int) 2 = { x := 2, y := 4, z := 6 } :=
  (mul_vec_scalar_index ({ x := 1, y := 2, z := 3 } : vec Int) 2).2

/-- C3: matrix addition and subtraction are column-wise: for every scalar type,
matrices `A`, `B` and index `i`, column `i` of `A + B` is the vector sum
`A[i] + B[i]` and column `i` of `A - B` is the vector difference `A[i] - B[i]`. -/
theorem add_sub_mat_index {T : Type u} [Zero T] [Add T] [Sub T] (A B : mat T)
    (i : Fin 3) :
    (add_mat A B).index i = add_vec (A.index i) (B.index i)
      ∧ (sub_mat A B).index i = sub_vec (A.index i) (B.index i) := by
  fin_cases i <;> exact ⟨rfl, rfl⟩

/-- The scenario of C3 on the integers: with the three columns of `A` equal to
`{1, 1, 1}` and those of `B` equal to `{2, 2, 2}`, column `0` of `A + B` is `{3, 3, 3}`. -/
theorem add_sub_mat_index_witness :
    (add_mat
        ({ m0 := { x := 1, y := 1, z := 1 }, m1 := { x := 1, y := 1, z := 1 },
           m2 := { x := 1, y := 1, z := 1 } } : mat Int)
        { m0 := { x := 2, y := 2, z := 2 }, m1 := { x := 2, y := 2, z := 2 },
          m2 := { x := 2, y := 2, z := 2 } }).index 0
      = { x := 3, y := 3, z := 3 } :=
  (add_sub_mat_index
    ({ m0 := { x := 1, y := 1, z := 1 }, m1 := { x := 1, y := 1, z := 1 },
       m2 := { x := 1, y := 1, z := 1 } } : mat Int)
    { m0 := { x := 2, y := 2, z := 2 }, m1 := { x := 2, y := 2, z := 2 },
      m2 := { x := 2, y := 2, z := 2 } } 0).1

/-- C4: for every scalar type, matrix `M`, scalar `s` and column index `i`, column `i`
of `M * s` is the vector-scalar product `M[i] * s`; hence its entry in row `j` is
`M[i][j] * s`; and the column depends on column `i` of `M` alone, whatever the other
two columns are. -/
theorem mul_mat_scalar_index {T : Type u} [Mul T] (M : mat T) (s : T) (i : Fin 3) :
    (mul_mat_scalar M s).index i = mul_vec_scalar (M.index i) s
      ∧ (∀ j : Fin 3, ((mul_mat_scalar M s).index i).index j = (M.index i).index j * s)
      ∧ (∀ N : mat T, N.index i = M.index i →
          (mul_mat_scalar N s).index i = (mul_mat_scalar M s).index i) := by
  have col : ∀ K : mat T, (mul_mat_scalar K s).index i = mul_vec_scalar (K.index i) s := by
    intro K
    fin_cases i <;> rfl
  refine ⟨col M, fun j => ?_, fun N h => ?_⟩
  · rw [col M]
    fin_cases j <;> rfl
  · rw [col N, col M, h]

/-- An instance of C4 on the integers: two matrices that share column `1` and differ in
the other two have the same column `1` after scaling by `5`, namely `{10, 15, 20}`. -/
theorem mul_mat_scalar_index_witness :
    (mul_mat_scalar
        ({ m0 := { x := 1, y := 0, z := 7 }, m1 := { x := 2, y := 3, z := 4 },
           m2 := { x := 9, y := 9, z := 9 } } : mat Int) 5).index 1
      = { x := 10, y := 15, z := 20 }
    ∧ (mul_mat_scalar
        ({ m0 := { x := 0, y := 0, z := 0 }, m1 := { x := 2, y := 3, z := 4 },
           m2 := { x := 6, y := 5, z := 8 } } : mat Int) 5).index 1
      = (mul_mat_scalar
        ({ m0 := { x := 1, y := 0, z := 7 }, m1 := { x := 2, y := 3, z := 4 },
           m2 := { x := 9, y := 9, z := 9 } } : mat Int) 5).index 1 :=
  ⟨(mul_mat_scalar_index
      ({ m0 := { x := 1, y := 0, z := 7 }, m1 := { x := 2, y := 3, z := 4 },
         m2 := { x := 9, y := 9, z := 9 } } : mat Int) 5 1).1,
   (mul_mat_scalar_index
      ({ m0 := { x := 1, y := 0, z := 7 }, m1 := { x := 2, y := 3, z := 4 },
         m2 := { x := 9, y := 9, z := 9 } } : mat Int) 5 1).2.2
      { m0 := { x := 0, y := 0, z := 0 }, m1 := { x := 2, y := 3, z := 4 },
        m2 := { x := 6, y := 5, z := 8 } } rfl⟩

/-- C5: vector addition and subtraction are component-wise: for every scalar type,
vectors `a`, `b` and index `i`, component `i` of `a + b` is `a[i] + b[i]` and component
`i` of `a - b` is `a[i] - b[i]`, the component of `a` being the left operand. -/
theorem add_sub_vec_index {T : Type u} [Add T] [Sub T] (a b : vec T) (i : Fin 3) :
    (add_vec a b).index i = a.index i + b.index i
      ∧ (sub_vec a b).index i = a.index i - b.index i := by
  fin_cases i <;> exact ⟨rfl, rfl⟩

/-- An instance of C5 on the integers: `{1, 2, 3} + {10, 20, 30}` has component `1`
equal to `22`, and `{1, 2, 3} - {10, 20, 30}` has component `1` equal to `-18`. -/
theorem add_sub_vec_index_witness :
    (add_vec ({ x := 1, y := 2, z := 3 } : vec Int) { x := 10, y := 20, z := 30 }).index 1
        = 22
      ∧ (sub_vec ({ x := 1, y := 2, z := 3 } : vec Int)
            { x := 10, y := 20, z := 30 }).index 1
          = -18 :=
  add_sub_vec_index ({ x := 1, y := 2, z := 3 } : vec Int) { x := 10, y := 20, z := 30 } 1

/-! ## Algebraic laws inherited from the scalar type -/

/-- C6: vector addition is commutative: over a scalar type whose addition is
commutative, `a + b` and `b + a` are the same vector, and so agree component by
component. -/
theorem add_vec_comm {T : Type u} [Add T] (hcomm : ∀ s t : T, s + t = t + s)
    (a b : vec T) :
    add_vec a b = add_vec b a
      ∧ ∀ i : Fin 3, (add_vec a b).index i = (add_vec b a).index i := by
  have h : add_vec a b = add_vec b a := by
    simp only [add_vec, hcomm a.x, hcomm a.y, hcomm a.z]
  exact ⟨h, fun i => by rw [h]⟩

/-- An instance of C6 on 8-bit wrapping integers (`Fin 256`, whose `+` is addition
modulo `2 ^ 8`): both sums are `{44, 44, 0}`. -/
theorem add_vec_comm_witness :
    (∀ s t : Fin 256, s + t = t + s)
      ∧ add_vec ({ x := 200, y := 100, z := 255 } : vec (Fin 256))
            { x := 100, y := 200, z := 1 }
          = add_vec ({ x := 100, y := 200, z := 1 } : vec (Fin 256))
              { x := 200, y := 100, z := 255 }
      ∧ add_vec ({ x := 100, y := 200, z := 1 } : vec (Fin 256))
            { x := 200, y := 100, z := 255 }
          = { x := 44, y := 44, z := 0 } :=
  ⟨fun s t => add_comm s t,
   (add_vec_comm (fun s t : Fin 256 => add_comm s t)
      { x := 200, y := 100, z := 255 } { x := 100, y := 200, z := 1 }).1,
   by decide⟩

/-- C7: vector addition is associative: over a scalar type whose addition is
associative, `(a + b) + c` and `a + (b + c)` are the same vector, and so agree
component by component. -/
theorem add_vec_assoc {T : Type u} [Add T]
    (hassoc : ∀ r s t : T, (r + s) + t = r + (s + t)) (a b c : vec T) :
    add_vec (add_vec a b) c = add_vec a (add_vec b c)
      ∧ ∀ i : Fin 3,
          (add_vec (add_vec a b) c).index i = (add_vec a (add_vec b c)).index i := by
  have h : add_vec (add_vec a b) c = add_vec a (add_vec b c) := by
    simp only [add_vec, hassoc]
  exact ⟨h, fun i => by rw [h]⟩

/-- An instance of C7 on 8-bit wrapping integers (`Fin 256`): both bracketings of
`{200, 1, 255} + {100, 2, 255} + {50, 3, 255}` are `{94, 6, 253}`. -/
theorem add_vec_assoc_witness :
    (∀ r s t : Fin 256, (r + s) + t = r + (s + t))
      ∧ add_vec (add_vec ({ x := 200, y := 1, z := 255 } : vec (Fin 256))
            { x := 100, y := 2, z := 255 }) { x := 50, y := 3, z := 255 }
          = add_vec ({ x := 200, y := 1, z := 255 } : vec (Fin 256))
              (add_vec { x := 100, y := 2, z := 255 } { x := 50, y := 3, z := 255 })
      ∧ add_vec ({ x := 200, y := 1, z := 255 } : vec (Fin 256))
            (add_vec { x := 100, y := 2, z := 255 } { x := 50, y := 3, z := 255 })
          = { x := 94, y := 6, z := 253 } :=
  ⟨fun r s t => add_assoc r s t,
   (add_vec_assoc (fun r s t : Fin 256 => add_assoc r s t)
      { x := 200, y := 1, z := 255 } { x := 100, y := 2, z := 255 }
      { x := 50, y := 3, z := 255 }).1,
   by decide⟩

/-- C8: vector subtraction undoes vector addition: over a scalar type that is an
additive group, `(a + b) - b` is `a`. -/
theorem sub_vec_add_vec_cancel {T : Type u} [AddGroup T] (a b : vec T) :
    sub_vec (add_vec a b) b = a := by
  cases a
  simp only [sub_vec, add_vec, add_sub_cancel_right]

/-- An instance of C8 on 8-bit wrapping integers (`Fin 256`): the sum wraps to
`{44, 44, 0}` and subtracting `b` again gives back `a`. -/
theorem sub_vec_add_vec_cancel_witness :
    add_vec ({ x := 200, y := 100, z := 255 } : vec (Fin 256))
          { x := 100, y := 200, z := 1 }
        = { x := 44, y := 44, z := 0 }
      ∧ sub_vec (add_vec ({ x := 200, y := 100, z := 255 } : vec (Fin 256))
            { x := 100, y := 200, z := 1 }) { x := 100, y := 200, z := 1 }
          = { x := 200, y := 100, z := 255 } :=
  ⟨by decide,
   sub_vec_add_vec_cancel ({ x := 200, y := 100, z := 255 } : vec (Fin 256))
      { x := 100, y := 200, z := 1 }⟩

/-! ## Default construction -/

/-- C9: default construction yields zero: for every scalar type, the three fields of a
default-constructed `vec` and of a default-constructed `pos` are `ScalarT(0)`, every
column of a default-constructed `mat` is the zero vector, and all nine of its entries
are `ScalarT(0)`. -/
theorem default_is_zero {T : Type u} [Zero T] :
    ((vec.default : vec T).x = 0 ∧ (vec.default : vec T).y = 0
        ∧ (vec.default : vec T).z = 0)
      ∧ ((pos.default : pos T).x = 0 ∧ (pos.default : pos T).y = 0
        ∧ (pos.default : pos T).z = 0)
      ∧ (∀ i : Fin 3, (mat.default : mat T).index i = vec.default)
      ∧ (∀ i j : Fin 3, ((mat.default : mat T).index i).index j = 0) := by
  refine ⟨⟨rfl, rfl, rfl⟩, ⟨rfl, rfl, rfl⟩, fun i => ?_, fun i j => ?_⟩
  · fin_cases i <;> rfl
  · fin_cases i <;> fin_cases j <;> rfl

/-- C10: the default-constructed vector is a left identity of vector addition: over a
scalar type in which `0 + s = s`, `zero_vector + v` is `v`. -/
theorem default_add_vec {T : Type u} [Zero T] [Add T] (hzero : ∀ s : T, 0 + s = s)
    (v : vec T) :
    add_vec vec.default v = v := by
  cases v
  simp only [add_vec, vec.default, hzero]

/-- An instance of C10 on the integers: `zero_vector + {4, -5, 6}` is `{4, -5, 6}`. -/
theorem default_add_vec_witness :
    (∀ s : Int, 0 + s = s)
      ∧ add_vec vec.default ({ x := 4, y := -5, z := 6 } : vec Int)
          = { x := 4, y := -5, z := 6 } :=
  ⟨Int.zero_add, default_add_vec Int.zero_add { x := 4, y := -5, z := 6 }⟩

/-! ## Zero and identity matrices -/

/-- C11: the default-constructed matrix annihilates every vector: over a scalar type in
which `0 * s = 0` and `0 + 0 = 0` (every semiring), `zero_matrix * v` is the
default-constructed vector. -/
theorem default_mul_mat_vec {T : Type u} [Zero T] [Add T] [Mul T]
    (hmul : ∀ s : T, 0 * s = 0) (hadd : (0 : T) + 0 = 0) (v : vec T) :
    mul_mat_vec mat.default v = vec.default := by
  simp only [mul_mat_vec, mat.default, vec.default, mat.index, vec.index, hmul, hadd]

/-- An instance of C11 on the integers: `zero_matrix * {4, -5, 6}` is `{0, 0, 0}`. -/
theorem default_mul_mat_vec_witness :
    (∀ s : Int, 0 * s = 0) ∧ (0 : Int) + 0 = 0
      ∧ mul_mat_vec mat.default ({ x := 4, y := -5, z := 6 } : vec Int)
          = { x := 0, y := 0, z := 0 } :=
  ⟨Int.zero_mul, rfl,
   default_mul_mat_vec Int.zero_mul rfl ({ x := 4, y := -5, z := 6 } : vec Int)⟩

/-- C12: the matrix with columns `{1, 0, 0}`, `{0, 1, 0}`, `{0, 0, 1}` is the identity
of the matrix-vector product: over a scalar type in which `1 * s = s`, `0 * s = 0` and
`s + 0 = 0 + s = s` (every semiring), `M * v` is `v`. -/
theorem identity_mul_mat_vec {T : Type u} [Zero T] [One T] [Add T] [Mul T]
    (hone : ∀ s : T, 1 * s = s) (hmul : ∀ s : T, 0 * s = 0)
    (hadd : ∀ s : T, s + 0 = s) (hzero : ∀ s : T, 0 + s = s) (v : vec T) :
    mul_mat_vec
        ({ m0 := { x := 1, y := 0, z := 0 }, m1 := { x := 0, y := 1, z := 0 },
           m2 := { x := 0, y := 0, z := 1 } } : mat T) v
      = v := by
  cases v
  simp only [mul_mat_vec, mat.index, vec.index, hone, hmul, hadd, hzero]

/-- The scenario of C12 on the integers: the identity matrix times `{4, 5, 6}` is
`{4, 5, 6}`. -/
theorem identity_mul_mat_vec_witness :
    ((∀ s : Int, 1 * s = s) ∧ (∀ s : Int, 0 * s = 0) ∧ (∀ s : Int, s + 0 = s)
        ∧ (∀ s : Int, 0 + s = s))
      ∧ mul_mat_vec
          ({ m0 := { x := 1, y := 0, z := 0 }, m1 := { x := 0, y := 1, z := 0 },
             m2 := { x := 0, y := 0, z := 1 } } : mat Int)
          { x := 4, y := 5, z := 6 }
        = { x := 4, y := 5, z := 6 } :=
  ⟨⟨Int.one_mul, Int.zero_mul, Int.add_zero, Int.zero_add⟩,
   identity_mul_mat_vec Int.one_mul Int.zero_mul Int.add_zero Int.zero_add
     ({ x := 4, y := 5, z := 6 } : vec Int)⟩

/-! ## The accessors -/

/-- The partial read accessor of `vec` is defined at `0`, `1`, `2`, where it is the
accessor over `Fin 3`. -/
theorem vec_index?_coe {T : Type u} (v : vec T) (i : Fin 3) :
    v.index? (i.val : Int) = some (v.index i) := by
  fin_cases i <;> rfl

/-- The partial read accessor of `pos` is defined at `0`, `1`, `2`, where it is the
accessor over `Fin 3`. -/
theorem pos_index?_coe {T : Type u} (p : pos T) (i : Fin 3) :
    p.index? (i.val : Int) = some (p.index i) := by
  fin_cases i <;> rfl

/-- The partial read accessor of `mat` is defined at `0`, `1`, `2`, where it is the
accessor over `Fin 3`. -/
theorem mat_index?_coe {T : Type u} (a : mat T) (i : Fin 3) :
    a.index? (i.val : Int) = some (a.index i) := by
  fin_cases i <;> rfl

/-- The partial write accessor of `mat` is defined at `0`, `1`, `2`, where it is the
assignment over `Fin 3`. -/
theorem mat_set?_coe {T : Type u} (a : mat T) (i : Fin 3) (c : vec T) :
    a.set? (i.val : Int) c = some (a.set i c) := by
  fin_cases i <;> rfl

/-- C13: indexed read access on `vec` and `pos` agrees with the named fields in index
order: `p[0]` is `p.x`, `p[1]` is `p.y` and `p[2]` is `p.z`, for the accessor over
`{0, 1, 2}` and for the accessor taking an arbitrary `int`. -/
theorem index_eq_field {T : Type u} (v : vec T) (p : pos T) :
    (v.index 0 = v.x ∧ v.index 1 = v.y ∧ v.index 2 = v.z)
      ∧ (p.index 0 = p.x ∧ p.index 1 = p.y ∧ p.index 2 = p.z)
      ∧ (v.index? 0 = some v.x ∧ v.index? 1 = some v.y ∧ v.index? 2 = some v.z)
      ∧ (p.index? 0 = some p.x ∧ p.index? 1 = some p.y ∧ p.index? 2 = some p.z) :=
  ⟨⟨rfl, rfl, rfl⟩, ⟨rfl, rfl, rfl⟩, ⟨rfl, rfl, rfl⟩, ⟨rfl, rfl, rfl⟩⟩

/-- An instance of C13 on the integers: the vector `{7, 8, 9}` reads `7`, `8`, `9` at
the indices `0`, `1`, `2`. -/
theorem index_eq_field_witness :
    (({ x := 7, y := 8, z := 9 } : vec Int).index 0 = 7
        ∧ ({ x := 7, y := 8, z := 9 } : vec Int).index 1 = 8
        ∧ ({ x := 7, y := 8, z := 9 } : vec Int).index 2 = 9) :=
  (index_eq_field ({ x := 7, y := 8, z := 9 } : vec Int)
    ({ x := 0, y := 0, z := 0 } : pos Int)).1

/-- C14: matrix index access returns the stored column: after the assignments
`m[0] = c0; m[1] = c1; m[2] = c2` to any matrix, `m[0]`, `m[1]`, `m[2]` are `c0`, `c1`,
`c2`, and the element `m[i][j]` is component `j` of that column; an assignment to column
`i` leaves the other two columns as they were. -/
theorem mat_index_is_column {T : Type u} (a : mat T) (c0 c1 c2 : vec T) :
    ((((a.set 0 c0).set 1 c1).set 2 c2).index 0 = c0
        ∧ (((a.set 0 c0).set 1 c1).set 2 c2).index 1 = c1
        ∧ (((a.set 0 c0).set 1 c1).set 2 c2).index 2 = c2)
      ∧ (∀ j : Fin 3,
          ((((a.set 0 c0).set 1 c1).set 2 c2).index 0).index j = c0.index j
            ∧ ((((a.set 0 c0).set 1 c1).set 2 c2).index 1).index j = c1.index j
            ∧ ((((a.set 0 c0).set 1 c1).set 2 c2).index 2).index j = c2.index j)
      ∧ (∀ (i j : Fin 3) (c : vec T), j ≠ i → (a.set i c).index j = a.index j)
      ∧ (∀ (i : Fin 3) (c : vec T), (a.set i c).index i = c) :=
  ⟨⟨rfl, rfl, rfl⟩, fun _ => ⟨rfl, rfl, rfl⟩,
   fun i j c h => mat_index_set_other a i j c h, fun i c => mat_index_set_same a i c⟩

/-- An instance of C14 on the integers: assigning the columns `{1, 2, 3}`, `{4, 5, 6}`,
`{7, 8, 9}` to a default-constructed matrix, `m[1]` is `{4, 5, 6}`, `m[1][2]` is `6`
(and not the transposed entry `8`), and a later assignment to column `0` leaves column
`1` unchanged. -/
theorem mat_index_is_column_witness :
    ((((mat.default : mat Int).set 0 { x := 1, y := 2, z := 3 }).set 1
          { x := 4, y := 5, z := 6 }).set 2 { x := 7, y := 8, z := 9 }).index 1
        = { x := 4, y := 5, z := 6 }
      ∧ (((((mat.default : mat Int).set 0 { x := 1, y := 2, z := 3 }).set 1
          { x := 4, y := 5, z := 6 }).set 2 { x := 7, y := 8, z := 9 }).index 1).index 2
        = 6
      ∧ ((({ m0 := { x := 1, y := 2, z := 3 }, m1 := { x := 4, y := 5, z := 6 },
             m2 := { x := 7, y := 8, z := 9 } } : mat Int).set 0
            { x := 0, y := 0, z := 0 }).index 1
          = { x := 4, y := 5, z := 6 }) :=
  ⟨(mat_index_is_column (mat.default : mat Int) { x := 1, y := 2, z := 3 }
      { x := 4, y := 5, z := 6 } { x := 7, y := 8, z := 9 }).1.2.1,
   ((mat_index_is_column (mat.default : mat Int) { x := 1, y := 2, z := 3 }
      { x := 4, y := 5, z := 6 } { x := 7, y := 8, z := 9 }).2.1 2).2.1,
   (mat_index_is_column
      ({ m0 := { x := 1, y := 2, z := 3 }, m1 := { x := 4, y := 5, z := 6 },
         m2 := { x := 7, y := 8, z := 9 } } : mat Int)
      { x := 0, y := 0, z := 0 } { x := 0, y := 0, z := 0 }
      { x := 0, y := 0, z := 0 }).2.2.1 0 1 { x := 0, y := 0, z := 0 } (by decide)⟩

/-! ## Totality over the partial accessors -/

/-- Outside `{0, 1, 2}` the partial accessors are undefined: the failing branch
exists, it is only never taken by the operators. -/
theorem index?_out_of_range {T : Type u} (v : vec T) (a : mat T) (c : vec T) (i : Int)
    (h : i < 0 ∨ 2 < i) :
    v.index? i = none ∧ a.index? i = none ∧ a.set? i c = none := by
  have h0 : i ≠ 0 := by omega
  have h1 : i ≠ 1 := by omega
  have h2 : i ≠ 2 := by omega
  simp [vec.index?, mat.index?, mat.set?, h0, h1, h2]

/-- C15: no operator can fail: with indexing partial (defined at `0`, `1`, `2` only),
each of the seven operators returns a result for every input, and that result is the
one of the operator over in-range indices. -/
theorem operators_total {T : Type u} [Zero T] [Add T] [Sub T] [Mul T]
    (A B : mat T) (a b : vec T) (s : T) :
    mul_vec_scalar? a s = some (mul_vec_scalar a s)
      ∧ mul_mat_vec? A b = some (mul_mat_vec A b)
      ∧ mul_mat_scalar? A s = some (mul_mat_scalar A s)
      ∧ add_vec? a b = some (add_vec a b)
      ∧ sub_vec? a b = some (sub_vec a b)
      ∧ add_mat? A B = some (add_mat A B)
      ∧ sub_mat? A B = some (sub_mat A B) :=
  ⟨rfl, rfl, rfl, rfl, rfl, rfl, rfl⟩

/-- An instance of C15 on the integers: the partial matrix-vector product of the
columns `{1, 2, 3}`, `{4, 5, 6}`, `{7, 8, 9}` with `{1, 10, 100}` returns
`{741, 852, 963}`, while a read at index `3` of that vector fails. -/
theorem operators_total_witness :
    mul_mat_vec?
        ({ m0 := { x := 1, y := 2, z := 3 }, m1 := { x := 4, y := 5, z := 6 },
           m2 := { x := 7, y := 8, z := 9 } } : mat Int)
        { x := 1, y := 10, z := 100 }
      = some { x := 741, y := 852, z := 963 }
    ∧ ({ x := 1, y := 10, z := 100 } : vec Int).index? 3 = none :=
  ⟨(operators_total
      ({ m0 := { x := 1, y := 2, z := 3 }, m1 := { x := 4, y := 5, z := 6 },
         m2 := { x := 7, y := 8, z := 9 } } : mat Int)
      ({ m0 := { x := 1, y := 2, z := 3 }, m1 := { x := 4, y := 5, z := 6 },
         m2 := { x := 7, y := 8, z := 9 } } : mat Int)
      ({ x := 1, y := 10, z := 100 } : vec Int) { x := 1, y := 10, z := 100 } 0).2.1,
   rfl⟩

/-! ## The scalar arithmetic passes through the operators unchanged -/

section ScalarMaps

variable {S : Type u} {T : Type v}

/-- A scalar map that preserves `*` commutes with the vector-scalar product. -/
theorem map_mul_vec_scalar [Mul S] [Mul T] (f : S → T)
    (hmul : ∀ p q : S, f (p * q) = f p * f q) (a : vec S) (s : S) :
    (mul_vec_scalar a s).map f = mul_vec_scalar (a.map f) (f s) := by
  simp only [mul_vec_scalar, vec.map, hmul]

/-- A scalar map that preserves `+` and `*` commutes with the matrix-vector product. -/
theorem map_mul_mat_vec [Add S] [Mul S] [Add T] [Mul T] (f : S → T)
    (hadd : ∀ p q : S, f (p + q) = f p + f q) (hmul : ∀ p q : S, f (p * q) = f p * f q)
    (A : mat S) (b : vec S) :
    (mul_mat_vec A b).map f = mul_mat_vec (A.map f) (b.map f) := by
  simp only [mul_mat_vec, vec.map, mat.map, mat.index, vec.index, hadd, hmul]

/-- A scalar map that preserves `*` commutes with the matrix-scalar product. -/
theorem map_mul_mat_scalar [Mul S] [Mul T] (f : S → T)
    (hmul : ∀ p q : S, f (p * q) = f p * f q) (A : mat S) (s : S) :
    (mul_mat_scalar A s).map f = mul_mat_scalar (A.map f) (f s) := by
  simp only [mul_mat_scalar, mul_vec_scalar, mat.map, vec.map, mat.set, mat.index, hmul]

/-- A scalar map that preserves `+` commutes with the vector sum. -/
theorem map_add_vec [Add S] [Add T] (f : S → T)
    (hadd : ∀ p q : S, f (p + q) = f p + f q) (a b : vec S) :
    (add_vec a b).map f = add_vec (a.map f) (b.map f) := by
  simp only [add_vec, vec.map, hadd]

/-- A scalar map that preserves `-` commutes with the vector difference. -/
theorem map_sub_vec [Sub S] [Sub T] (f : S → T)
    (hsub : ∀ p q : S, f (p - q) = f p - f q) (a b : vec S) :
    (sub_vec a b).map f = sub_vec (a.map f) (b.map f) := by
  simp only [sub_vec, vec.map, hsub]

/-- A scalar map that preserves `+` commutes with the matrix sum. -/
theorem map_add_mat [Zero S] [Add S] [Zero T] [Add T] (f : S → T)
    (hadd : ∀ p q : S, f (p + q) = f p + f q) (A B : mat S) :
    (add_mat A B).map f = add_mat (A.map f) (B.map f) := by
  simp only [add_mat, add_vec, mat.map, vec.map, mat.set, mat.index, hadd]

/-- A scalar map that preserves `-` commutes with the matrix difference. -/
theorem map_sub_mat [Zero S] [Sub S] [Zero T] [Sub T] (f : S → T)
    (hsub : ∀ p q : S, f (p - q) = f p - f q) (A B : mat S) :
    (sub_mat A B).map f = sub_mat (A.map f) (B.map f) := by
  simp only [sub_mat, sub_vec, mat.map, vec.map, mat.set, mat.index, hsub]

end ScalarMaps

section Wrapping

variable {w : Nat}

/-- Two `w`-bit integers with the same value are equal. -/
theorem wint_eq_of_val_eq {a b : wint w} (h : a.val = b.val) : a = b := by
  cases a
  cases b
  cases h
  rfl

/-- Converting the value of a `w`-bit integer back to `w` bits changes nothing. -/
theorem wint_ofInt_val (a : wint w) : wint.ofInt w a.val = a :=
  wint_eq_of_val_eq (Int.emod_eq_of_lt a.lo a.hi)

/-- Reduction modulo `2 ^ w` takes the integer sum to the wrapping sum. -/
theorem wint_ofInt_add (m n : Int) :
    wint.ofInt w (m + n) = wint.ofInt w m + wint.ofInt w n :=
  wint_eq_of_val_eq (Int.add_emod m n (2 ^ w))

/-- Reduction modulo `2 ^ w` takes the integer difference to the wrapping difference. -/
theorem wint_ofInt_sub (m n : Int) :
    wint.ofInt w (m - n) = wint.ofInt w m - wint.ofInt w n :=
  wint_eq_of_val_eq (Int.sub_emod m n (2 ^ w))

/-- Reduction modulo `2 ^ w` takes the integer product to the wrapping product. -/
theorem wint_ofInt_mul (m n : Int) :
    wint.ofInt w (m * n) = wint.ofInt w m * wint.ofInt w n :=
  wint_eq_of_val_eq (Int.mul_emod m n (2 ^ w))

/-- A vector of `w`-bit integers is the reduction of its vector of values. -/
theorem wint_vec_ofInt_val (a : vec (wint w)) :
    (a.map wint.val).map (wint.ofInt w) = a := by
  cases a
  simp only [vec.map, wint_ofInt_val]

/-- A matrix of `w`-bit integers is the reduction of its matrix of values. -/
theorem wint_mat_ofInt_val (A : mat (wint w)) :
    (A.map wint.val).map (wint.ofInt w) = A := by
  cases A
  simp only [mat.map, wint_vec_ofInt_val]

end Wrapping

/-- C16: the operators add no overflow handling, widening or rounding of their own.
First part: for any scalar map `f` that preserves `+`, `-` and `*`, applying `f`
component by component commutes with each of the seven operators.  Second part: on
`w`-bit wrapping integers, the values of the components of each operator's result are
the exact integer result of the same operator on the values of the same inputs, reduced
modulo `2 ^ w`. -/
theorem operators_preserve_scalar_arithmetic :
    (∀ (S : Type u) (T : Type v) [Zero S] [Add S] [Sub S] [Mul S]
        [Zero T] [Add T] [Sub T] [Mul T] (f : S → T),
        (∀ p q : S, f (p + q) = f p + f q) → (∀ p q : S, f (p - q) = f p - f q) →
        (∀ p q : S, f (p * q) = f p * f q) →
        ∀ (A B : mat S) (a b : vec S) (s : S),
          (mul_vec_scalar a s).map f = mul_vec_scalar (a.map f) (f s)
            ∧ (mul_mat_vec A b).map f = mul_mat_vec (A.map f) (b.map f)
            ∧ (mul_mat_scalar A s).map f = mul_mat_scalar (A.map f) (f s)
            ∧ (add_vec a b).map f = add_vec (a.map f) (b.map f)
            ∧ (sub_vec a b).map f = sub_vec (a.map f) (b.map f)
            ∧ (add_mat A B).map f = add_mat (A.map f) (B.map f)
            ∧ (sub_mat A B).map f = sub_mat (A.map f) (B.map f))
      ∧ (∀ (w : Nat) (A B : mat (wint w)) (a b : vec (wint w)) (s : wint w),
          (mul_vec_scalar a s).map wint.val
              = (mul_vec_scalar (a.map wint.val) s.val).map (wrap w)
            ∧ (mul_mat_vec A b).map wint.val
              = (mul_mat_vec (A.map wint.val) (b.map wint.val)).map (wrap w)
            ∧ (mul_mat_scalar A s).map wint.val
              = (mul_mat_scalar (A.map wint.val) s.val).map (wrap w)
            ∧ (add_vec a b).map wint.val
              = (add_vec (a.map wint.val) (b.map wint.val)).map (wrap w)
            ∧ (sub_vec a b).map wint.val
              = (sub_vec (a.map wint.val) (b.map wint.val)).map (wrap w)
            ∧ (add_mat A B).map wint.val
              = (add_mat (A.map wint.val) (B.map wint.val)).map (wrap w)
            ∧ (sub_mat A B).map wint.val
              = (sub_mat (A.map wint.val) (B.map wint.val)).map (wrap w)) := by
  constructor
  · intro S T _ _ _ _ _ _ _ _ f hadd hsub hmul A B a b s
    exact ⟨map_mul_vec_scalar f hmul a s, map_mul_mat_vec f hadd hmul A b,
      map_mul_mat_scalar f hmul A s, map_add_vec f hadd a b, map_sub_vec f hsub a b,
      map_add_mat f hadd A B, map_sub_mat f hsub A B⟩
  · intro w A B a b s
    have hA := wint_mat_ofInt_val A
    have hB := wint_mat_ofInt_val B
    have ha := wint_vec_ofInt_val a
    have hb := wint_vec_ofInt_val b
    have hs := wint_ofInt_val s
    refine ⟨?_, ?_, ?_, ?_, ?_, ?_, ?_⟩
    · calc (mul_vec_scalar a s).map wint.val
          = (mul_vec_scalar ((a.map wint.val).map (wint.ofInt w))
              (wint.ofInt w s.val)).map wint.val := by rw [ha, hs]
        _ = ((mul_vec_scalar (a.map wint.val) s.val).map (wint.ofInt w)).map wint.val := by
            rw [map_mul_vec_scalar (wint.ofInt w) wint_ofInt_mul]
        _ = (mul_vec_scalar (a.map wint.val) s.val).map (wrap w) := rfl
    · calc (mul_mat_vec A b).map wint.val
          = (mul_mat_vec ((A.map wint.val).map (wint.ofInt w))
              ((b.map wint.val).map (wint.ofInt w))).map wint.val := by rw [hA, hb]
        _ = ((mul_mat_vec (A.map wint.val) (b.map wint.val)).map
              (wint.ofInt w)).map wint.val := by
            rw [map_mul_mat_vec (wint.ofInt w) wint_ofInt_add wint_ofInt_mul]
        _ = (mul_mat_vec (A.map wint.val) (b.map wint.val)).map (wrap w) := rfl
    · calc (mul_mat_scalar A s).map wint.val
          = (mul_mat_scalar ((A.map wint.val).map (wint.ofInt w))
              (wint.ofInt w s.val)).map wint.val := by rw [hA, hs]
        _ = ((mul_mat_scalar (A.map wint.val) s.val).map (wint.ofInt w)).map wint.val := by
            rw [map_mul_mat_scalar (wint.ofInt w) wint_ofInt_mul]
        _ = (mul_mat_scalar (A.map wint.val) s.val).map (wrap w) := rfl
    · calc (add_vec a b).map wint.val
          = (add_vec ((a.map wint.val).map (wint.ofInt w))
              ((b.map wint.val).map (wint.ofInt w))).map wint.val := by rw [ha, hb]
        _ = ((add_vec (a.map wint.val) (b.map wint.val)).map
              (wint.ofInt w)).map wint.val := by
            rw [map_add_vec (wint.ofInt w) wint_ofInt_add]
        _ = (add_vec (a.map wint.val) (b.map wint.val)).map (wrap w) := rfl
    · calc (sub_vec a b).map wint.val
          = (sub_vec ((a.map wint.val).map (wint.ofInt w))
              ((b.map wint.val).map (wint.ofInt w))).map wint.val := by rw [ha, hb]
        _ = ((sub_vec (a.map wint.val) (b.map wint.val)).map
              (wint.ofInt w)).map wint.val := by
            rw [map_sub_vec (wint.ofInt w) wint_ofInt_sub]
        _ = (sub_vec (a.map wint.val) (b.map wint.val)).map (wrap w) := rfl
    · calc (add_mat A B).map wint.val
          = (add_mat ((A.map wint.val).map (wint.ofInt w))
              ((B.map wint.val).map (wint.ofInt w))).map wint.val := by rw [hA, hB]
        _ = ((add_mat (A.map wint.val) (B.map wint.val)).map
              (wint.ofInt w)).map wint.val := by
            rw [map_add_mat (wint.ofInt w) wint_ofInt_add]
        _ = (add_mat (A.map wint.val) (B.map wint.val)).map (wrap w) := rfl
    · calc (sub_mat A B).map wint.val
          = (sub_mat ((A.map wint.val).map (wint.ofInt w))
              ((B.map wint.val).map (wint.ofInt w))).map wint.val := by rw [hA, hB]
        _ = ((sub_mat (A.map wint.val) (B.map wint.val)).map
              (wint.ofInt w)).map wint.val := by
            rw [map_sub_mat (wint.ofInt w) wint_ofInt_sub]
        _ = (sub_mat (A.map wint.val) (B.map wint.val)).map (wrap w) := rfl

/-- An instance of C16 on 8-bit wrapping integers: for the columns `{200, 1, 2}`,
`{100, 3, 4}`, `{50, 5, 6}` and the vector `{3, 2, 1}` the exact integer product is
`{850, 14, 20}` and the 8-bit product is `{82, 14, 20}`, its reduction modulo `256`;
and reduction modulo `256`, which preserves `+`, `-` and `*`, commutes with the product. -/
theorem operators_preserve_scalar_arithmetic_witness :
    mul_mat_vec
        ({ m0 := { x := 200, y := 1, z := 2 }, m1 := { x := 100, y := 3, z := 4 },
           m2 := { x := 50, y := 5, z := 6 } } : mat Int)
        { x := 3, y := 2, z := 1 }
      = { x := 850, y := 14, z := 20 }
    ∧ (mul_mat_vec
        (({ m0 := { x := 200, y := 1, z := 2 }, m1 := { x := 100, y := 3, z := 4 },
            m2 := { x := 50, y := 5, z := 6 } } : mat Int).map (wint.ofInt 8))
        (({ x := 3, y := 2, z := 1 } : vec Int).map (wint.ofInt 8))).map wint.val
      = { x := 82, y := 14, z := 20 }
    ∧ (mul_mat_vec
        ({ m0 := { x := 200, y := 1, z := 2 }, m1 := { x := 100, y := 3, z := 4 },
           m2 := { x := 50, y := 5, z := 6 } } : mat Int)
        { x := 3, y := 2, z := 1 }).map (wint.ofInt 8)
      = mul_mat_vec
        (({ m0 := { x := 200, y := 1, z := 2 }, m1 := { x := 100, y := 3, z := 4 },
            m2 := { x := 50, y := 5, z := 6 } } : mat Int).map (wint.ofInt 8))
        (({ x := 3, y := 2, z := 1 } : vec Int).map (wint.ofInt 8)) :=
  ⟨by decide,
   (((operators_preserve_scalar_arithmetic.{0, 0}).2 8
      (({ m0 := { x := 200, y := 1, z := 2 }, m1 := { x := 100, y := 3, z := 4 },
          m2 := { x := 50, y := 5, z := 6 } } : mat Int).map (wint.ofInt 8))
      (mat.default : mat (wint 8))
      (vec.default : vec (wint 8))
      (({ x := 3, y := 2, z := 1 } : vec Int).map (wint.ofInt 8))
      (wint.ofInt 8 0)).2.1).trans (by decide),
   ((operators_preserve_scalar_arithmetic.{0, 0}).1 Int (wint 8) (wint.ofInt 8)
      wint_ofInt_add wint_ofInt_sub wint_ofInt_mul
      ({ m0 := { x := 200, y := 1, z := 2 }, m1 := { x := 100, y := 3, z := 4 },
         m2 := { x := 50, y := 5, z := 6 } } : mat Int)
      (mat.default : mat Int) (vec.default : vec Int)
      ({ x := 3, y := 2, z := 1 } : vec Int) 0).2.1⟩

/-! ## The backend alias -/

/-- C17: the backend alias binds the right type to the right slot: for every scalar
type `S` and whatever the external template `math` is, `minimal_math<S>` is `math`
applied to `S`, `pos<3, S>`, `vec<3, S>`, `mat<3, 3, S>` in this order; read off a
`math` that records its four arguments, the slots are scalar, position, vector,
matrix. -/
theorem minimal_math_slots {α : Sort v} (math : Type u → Type u → Type u → Type u → α)
    (S : Type u) :
    minimal_math math S = math S (pos S) (vec S) (mat S)
      ∧ (minimal_math (fun s p v m => (s, p, v, m)) S).1 = S
      ∧ (minimal_math (fun s p v m => (s, p, v, m)) S).2.1 = pos S
      ∧ (minimal_math (fun s p v m => (s, p, v, m)) S).2.2.1 = vec S
      ∧ (minimal_math (fun s p v m => (s, p, v, m)) S).2.2.2 = mat S :=
  ⟨rfl, rfl, rfl, rfl, rfl⟩

/-- An instance of C17 at the scalar type of the integers, with a `math` that records
its four arguments. -/
theorem minimal_math_slots_witness :
    minimal_math (fun s p v m => (s, p, v, m)) Int = (Int, pos Int, vec Int, mat Int) :=
  (minimal_math_slots (fun s p v m => (s, p, v, m)) Int).1

/-! ## Writing through the accessors of `vec` and `pos` -/

/-- C18: writing through the mutable index accessor of a `vec` or `pos` updates exactly
the matching named field: after `p[i] = s` the field named by `i` (`0` is `x`, `1` is
`y`, `2` is `z`) is `s`, the other two fields are as before, and `p[i]` reads `s`. -/
theorem set_updates_field {T : Type u} (v : vec T) (p : pos T) (s : T) :
    (v.set 0 s = { x := s, y := v.y, z := v.z }
        ∧ v.set 1 s = { x := v.x, y := s, z := v.z }
        ∧ v.set 2 s = { x := v.x, y := v.y, z := s })
      ∧ (p.set 0 s = { x := s, y := p.y, z := p.z }
        ∧ p.set 1 s = { x := p.x, y := s, z := p.z }
        ∧ p.set 2 s = { x := p.x, y := p.y, z := s })
      ∧ (∀ i : Fin 3, (v.set i s).index i = s ∧ (p.set i s).index i = s)
      ∧ (∀ i j : Fin 3, j ≠ i →
          (v.set i s).index j = v.index j ∧ (p.set i s).index j = p.index j) := by
  refine ⟨⟨rfl, rfl, rfl⟩, ⟨rfl, rfl, rfl⟩, fun i => ?_, fun i j h => ?_⟩
  · fin_cases i <;> exact ⟨rfl, rfl⟩
  · fin_cases i <;> fin_cases j <;> first | exact ⟨rfl, rfl⟩ | exact absurd rfl h

/-- An instance of C18 on the integers: after `v[1] = 50` the vector `{7, 8, 9}` is
`{7, 50, 9}`, it reads `50` at index `1` and still `9` at index `2`. -/
theorem set_updates_field_witness :
    ({ x := 7, y := 8, z := 9 } : vec Int).set 1 50 = { x := 7, y := 50, z := 9 }
      ∧ (({ x := 7, y := 8, z := 9 } : vec Int).set 1 50).index 1 = 50
      ∧ (({ x := 7, y := 8, z := 9 } : vec Int).set 1 50).index 2
          = ({ x := 7, y := 8, z := 9 } : vec Int).index 2 :=
  ⟨(set_updates_field ({ x := 7, y := 8, z := 9 } : vec Int)
      ({ x := 7, y := 8, z := 9 } : pos Int) 50).1.2.1,
   ((set_updates_field ({ x := 7, y := 8, z := 9 } : vec Int)
      ({ x := 7, y := 8, z := 9 } : pos Int) 50).2.2.1 1).1,
   ((set_updates_field ({ x := 7, y := 8, z := 9 } : vec Int)
      ({ x := 7, y := 8, z := 9 } : pos Int) 50).2.2.2 1 2 (by decide)).1⟩

/-! ## Linearity of the matrix-vector product -/

/-- C19: the matrix-vector product is additive in both arguments: over a commutative
ring of scalars, `A * (u + v)` is `A * u + A * v` and `(A + B) * v` is `A * v + B * v`. -/
theorem mul_mat_vec_additive {T : Type u} [CommRing T] (A B : mat T) (u v : vec T) :
    mul_mat_vec A (add_vec u v) = add_vec (mul_mat_vec A u) (mul_mat_vec A v)
      ∧ mul_mat_vec (add_mat A B) v = add_vec (mul_mat_vec A v) (mul_mat_vec B v) := by
  constructor
  · simp only [mul_mat_vec, add_vec, mat.index, vec.index, vec.mk.injEq]
    exact ⟨by ring, by ring, by ring⟩
  · simp only [mul_mat_vec, add_mat, add_vec, mat.default, mat.set, mat.index, vec.index,
      vec.mk.injEq]
    exact ⟨by ring, by ring, by ring⟩

/-- An instance of C19 on the integers: with columns `{1, 2, 3}`, `{4, 5, 6}`,
`{7, 8, 9}`, `u = {1, 10, 100}` and `v = {1, 1, 1}`, both sides of the first equation
are `{753, 867, 981}`. -/
theorem mul_mat_vec_additive_witness :
    mul_mat_vec
        ({ m0 := { x := 1, y := 2, z := 3 }, m1 := { x := 4, y := 5, z := 6 },
           m2 := { x := 7, y := 8, z := 9 } } : mat Int)
        (add_vec { x := 1, y := 10, z := 100 } { x := 1, y := 1, z := 1 })
      = add_vec
          (mul_mat_vec
            ({ m0 := { x := 1, y := 2, z := 3 }, m1 := { x := 4, y := 5, z := 6 },
               m2 := { x := 7, y := 8, z := 9 } } : mat Int)
            { x := 1, y := 10, z := 100 })
          (mul_mat_vec
            ({ m0 := { x := 1, y := 2, z := 3 }, m1 := { x := 4, y := 5, z := 6 },
               m2 := { x := 7, y := 8, z := 9 } } : mat Int)
            { x := 1, y := 1, z := 1 })
    ∧ add_vec
          (mul_mat_vec
            ({ m0 := { x := 1, y := 2, z := 3 }, m1 := { x := 4, y := 5, z := 6 },
               m2 := { x := 7, y := 8, z := 9 } } : mat Int)
            { x := 1, y := 10, z := 100 })
          (mul_mat_vec
            ({ m0 := { x := 1, y := 2, z := 3 }, m1 := { x := 4, y := 5, z := 6 },
               m2 := { x := 7, y := 8, z := 9 } } : mat Int)
            { x := 1, y := 1, z := 1 })
      = { x := 753, y := 867, z := 981 } :=
  ⟨(mul_mat_vec_additive
      ({ m0 := { x := 1, y := 2, z := 3 }, m1 := { x := 4, y := 5, z := 6 },
         m2 := { x := 7, y := 8, z := 9 } } : mat Int)
      ({ m0 := { x := 1, y := 2, z := 3 }, m1 := { x := 4, y := 5, z := 6 },
         m2 := { x := 7, y := 8, z := 9 } } : mat Int)
      { x := 1, y := 10, z := 100 } { x := 1, y := 1, z := 1 }).1,
   by decide⟩

/-- C20: scaling the matrix and scaling the result agree: over a commutative ring of
scalars, `(M * s) * v` is `(M * v) * s`. -/
theorem mul_mat_scalar_mul_vec {T : Type u} [CommRing T] (M : mat T) (v : vec T) (s : T) :
    mul_mat_vec (mul_mat_scalar M s) v = mul_vec_scalar (mul_mat_vec M v) s := by
  simp only [mul_mat_vec, mul_mat_scalar, mul_vec_scalar, mat.set, mat.index, vec.index,
    vec.mk.injEq]
  exact ⟨by ring, by ring, by ring⟩

/-- An instance of C20 on the integers: with columns `{1, 2, 3}`, `{4, 5, 6}`,
`{7, 8, 9}`, `v = {1, 10, 100}` and `s = 2`, both sides are `{1482, 1704, 1926}`. -/
theorem mul_mat_scalar_mul_vec_witness :
    mul_mat_vec
        (mul_mat_scalar
          ({ m0 := { x := 1, y := 2, z := 3 }, m1 := { x := 4, y := 5, z := 6 },
             m2 := { x := 7, y := 8, z := 9 } } : mat Int) 2)
        { x := 1, y := 10, z := 100 }
      = mul_vec_scalar
          (mul_mat_vec
            ({ m0 := { x := 1, y := 2, z := 3 }, m1 := { x := 4, y := 5, z := 6 },
               m2 := { x := 7, y := 8, z := 9 } } : mat Int)
            { x := 1, y := 10, z := 100 }) 2
    ∧ mul_vec_scalar
          (mul_mat_vec
            ({ m0 := { x := 1, y := 2, z := 3 }, m1 := { x := 4, y := 5, z := 6 },
               m2 := { x := 7, y := 8, z := 9 } } : mat Int)
            { x := 1, y := 10, z := 100 }) 2
      = { x := 1482, y := 1704, z := 1926 } :=
  ⟨mul_mat_scalar_mul_vec
      ({ m0 := { x := 1, y := 2, z := 3 }, m1 := { x := 4, y := 5, z := 6 },
         m2 := { x := 7, y := 8, z := 9 } } : mat Int)
      { x := 1, y := 10, z := 100 } 2,
   by decide⟩

end pq
